import Mathlib

/-!
Verification of the spa front-desk booking engine.

The definitions below are a shallow embedding of the scheduling logic of
the repository's live booking page, `OperationsPage` (staged together
with the login page in `src/pages/LoginPage.tsx`) — the only booking
form the application shell renders — and of the shell's persistence
handlers (`handleAddBooking` / `handleUpdateBooking`).  The embedded
pieces are the `isBlocking` status predicate, the room-availability
checker, the next-available-slot search, and the submission handler
with its edit-time room-check bypass and its discount arithmetic.
Wall-clock times are the source's `"H:MM"` strings, converted to minutes
since midnight exactly as `timeToMinutes` does; statuses are a five-way
enumeration; the external record store is modelled by an explicit
success/failure argument so the handlers stay pure.
-/

namespace Spa

/-- The five booking statuses of `src/types.ts` (`BookingStatus`). -/
inductive BookingStatus where
  | pending
  | confirmed
  | inProgress
  | completed
  | cancelled
deriving DecidableEq, Repr

/-- A booking record (`src/types.ts`, interface `Booking`).  Optional
fields that the source leaves `undefined` on some paths (`code`,
`notes`, `serviceName`, `staffName`) are modelled by the empty string,
which the source treats the same way (falsy); `staffId` is genuinely
nullable and `discount` genuinely optional, so they stay `Option`. -/
structure Booking where
  id : String
  code : String
  customerName : String
  customerPhone : String
  serviceId : String
  serviceName : String
  staffId : Option String
  staffIds : List String
  staffName : String
  date : String
  time : String
  duration : Nat
  status : BookingStatus
  notes : String
  totalAmount : Nat
  discount : Option Nat
deriving DecidableEq, Repr

/-- The fields of a `Service` (`src/types.ts`) that the booking logic
reads. -/
structure Service where
  id : String
  code : String
  name : String
  duration : Nat
  price : Nat
  staffCount : Nat
deriving DecidableEq, Repr

/-- The fields of an `Employee` (`src/types.ts`) that the booking logic
reads. -/
structure Employee where
  id : String
  name : String
deriving DecidableEq, Repr

/-- Split a character list at every occurrence of `sep`
(JS `String.prototype.split` with a one-character separator). -/
def splitOnChar (sep : Char) : List Char → List (List Char)
  | [] => [[]]
  | c :: cs =>
    let rest := splitOnChar sep cs
    if c == sep then [] :: rest
    else
      match rest with
      | [] => [[c]]
      | r :: rs => (c :: r) :: rs

/-- Decimal value of a digit string (the behaviour of JS `Number` on the
all-digit segments the time grid produces; `Number('')` is 0). -/
def digitsToNat (s : List Char) : Nat :=
  s.foldl (fun acc c => acc * 10 + (c.toNat - 48)) 0

/-- Function `timeToMinutes` of `OperationsPage`: `"H:MM"` to minutes since
midnight; falsy (empty) input yields 0.  The source destructures the
first two segments of `time.split(':')`. -/
def timeToMinutes (time : String) : Nat :=
  if time == "" then 0
  else
    match splitOnChar ':' time.data with
    | h :: m :: _ => digitsToNat h * 60 + digitsToNat m
    | _ => 0

/-- Two-digit zero padding of the minute field
(`m.toString().padStart(2, '0')`). -/
def pad2 (m : Nat) : String :=
  if m < 10 then "0" ++ toString m else toString m

/-- Function `generateTimeSlots` of `OperationsPage`: labels from 10:00 to 22:00
every 10 minutes, stopping exactly at "22:00".  Only the `time` field of
the source's slot objects is kept (the `hour`/`minute` fields are never
read by the logic under study). -/
def generateTimeSlots : List String :=
  ((List.range 13).map (fun i => 10 + i)).flatMap (fun h =>
    (([0, 10, 20, 30, 40, 50].filter (fun m => !(h == 22 && m > 0))).map
      (fun m => toString h ++ ":" ++ pad2 m)))

/-- Constant `ALL_TIME_SLOTS` of `OperationsPage`. -/
def ALL_TIME_SLOTS : List String := generateTimeSlots

/-- Constant `TOTAL_ROOMS` of `OperationsPage`. -/
def TOTAL_ROOMS : Nat := 5

/-- The overlap test of `getRoomAvailability`
(`Math.max(checkStart, bStart) < Math.min(checkEnd, bEnd)`). -/
def overlaps (aStart aEnd bStart bEnd : Nat) : Bool :=
  decide (max aStart bStart < min aEnd bEnd)

/-- Predicate `isBlocking` of `OperationsPage`: a status counts as
busy/blocking exactly when it is Confirmed, InProgress or Pending. -/
def isBlocking (status : BookingStatus) : Bool :=
  status == BookingStatus.confirmed ||
    status == BookingStatus.inProgress ||
    status == BookingStatus.pending

/-- The body of the inner filter of `getRoomAvailability`
(`OperationsPage`): a booking is kept when it is not the booking being
edited, its status is blocking, and its half-open interval overlaps the
checked window. -/
def blocksWindow (checkStart checkEnd : Nat) (isEditing : Bool)
    (currentId : Option String) (b : Booking) : Bool :=
  if isEditing && currentId == some b.id then false
  else if !(isBlocking b.status) then false
  else
    overlaps checkStart checkEnd (timeToMinutes b.time)
      (timeToMinutes b.time + b.duration)

/-- Result record of `getRoomAvailability`. -/
structure RoomAvailability where
  isAvailable : Bool
  occupiedCount : Nat
deriving DecidableEq, Repr

/-- Function `getRoomAvailability` of `OperationsPage` (the modal's room
checker, synced with `isBlocking`).  The component state it closes over
(`bookings`, `formData.date`, `isEditing`, `currentId`) is passed
explicitly. -/
def getRoomAvailability (bookings : List Booking) (formDate : String)
    (isEditing : Bool) (currentId : Option String)
    (checkTime : String) (duration : Nat) : RoomAvailability :=
  let checkStart := timeToMinutes checkTime
  let checkEnd := checkStart + duration
  let dateBookings := bookings.filter (fun b => b.date == formDate)
  let overlappingBookings :=
    dateBookings.filter (blocksWindow checkStart checkEnd isEditing currentId)
  { isAvailable := decide (overlappingBookings.length < TOTAL_ROOMS),
    occupiedCount := overlappingBookings.length }

/-- Result record of the `roomStatus` memo of `OperationsPage`. -/
structure RoomStatusResult where
  isFull : Bool
  nextTime : Option String
deriving DecidableEq, Repr

/-- The `roomStatus` memo of `OperationsPage`: reports whether the
selected time is room-full and, when it is, scans the slot sequence
forward from the slot after the selected one for the first time with a
free room. -/
def roomStatus (bookings : List Booking) (formDate : String)
    (isEditing : Bool) (currentId : Option String) (formTime : String)
    (selectedService : Option Service) : RoomStatusResult :=
  match selectedService with
  | none => { isFull := false, nextTime := none }
  | some service =>
    if formTime == "" then { isFull := false, nextTime := none }
    else if (getRoomAvailability bookings formDate isEditing currentId
        formTime service.duration).isAvailable then
      { isFull := false, nextTime := none }
    else
      let nextTime :=
        match ALL_TIME_SLOTS.findIdx? (fun t => t == formTime) with
        | none => none
        | some startIndex =>
          (ALL_TIME_SLOTS.drop (startIndex + 1)).find? (fun t =>
            (getRoomAvailability bookings formDate isEditing currentId
              t service.duration).isAvailable)
      { isFull := true, nextTime := nextTime }

/-- Remove the first occurrence of `"BK"`
(JS `code.replace('BK', '')` with a string pattern replaces only the
first match). -/
def removeBK : List Char → List Char
  | 'B' :: 'K' :: rest => rest
  | c :: rest => c :: removeBK rest
  | [] => []

/-- The maximal leading digit run (what JS `parseInt` consumes). -/
def leadingDigits : List Char → List Char
  | c :: cs => if c.isDigit then c :: leadingDigits cs else []
  | [] => []

/-- Numeric value of a booking code as `generateCode` reads it
(`parseInt(code.replace('BK', '')) || 0`, with `'0'` for a falsy code;
`parseInt` of a digit-free string is `NaN`, which `|| 0` turns into 0 —
here the empty digit run already evaluates to 0). -/
def codeNumber (code : String) : Nat :=
  let codeVal := if code == "" then ['0'] else removeBK code.data
  digitsToNat (leadingDigits codeVal)

/-- Three-digit zero padding (`padStart(3, '0')`). -/
def pad3 (n : Nat) : String :=
  if n < 10 then "00" ++ toString n
  else if n < 100 then "0" ++ toString n
  else toString n

/-- Function `generateCode` of `OperationsPage`: `BK` plus the zero-padded
successor of the maximum numeric suffix over all known bookings. -/
def generateCode (bookings : List Booking) : String :=
  let maxCode := bookings.foldl (fun m b => Nat.max m (codeNumber b.code)) 0
  "BK" ++ pad3 (maxCode + 1)

/-- Whitespace as JS `trim` strips it (the whitespace that can occur in
the id strings at hand). -/
def isSpaceChar (c : Char) : Bool :=
  c == ' ' || c == '\t' || c == '\n' || c == '\r'

/-- JS `String.prototype.trim`: strip leading and trailing whitespace. -/
def trimString (s : String) : String :=
  String.mk (((s.data.dropWhile isSpaceChar).reverse.dropWhile
    isSpaceChar).reverse)

/-- JS `Array.prototype.join(', ')` over the selected staff names. -/
def joinNames : List String → String
  | [] => ""
  | [n] => n
  | n :: rest => n ++ ", " ++ joinNames rest

/-- The booking form's state (`formData` of `OperationsPage`, whose
`INITIAL_FORM_DATA` carries a numeric `discount` field). -/
structure FormData where
  customerName : String
  customerPhone : String
  serviceId : String
  staffId : Option String
  selectedStaffIds : List String
  date : String
  time : String
  status : BookingStatus
  notes : String
  discount : Nat
deriving DecidableEq, Repr

/-- Outcome of `handleSubmit`: each early `return` of the source and the
two callback invocations. -/
inductive SubmitResult where
  | noService
  | overbookDeclined
  | notEnoughStaff
  | create (b : Booking)
  | update (b : Booking)
deriving DecidableEq, Repr

/-- The `shouldCheckRoom` computation at the top of `handleSubmit`
(`OperationsPage`): the room-full check is skipped exactly when an
existing booking is being edited and its persisted date, time and
duration coincide with the submitted ones. -/
def shouldCheckRoom (bookings : List Booking) (fd : FormData)
    (isEditing : Bool) (currentId : Option String)
    (serviceDuration : Nat) : Bool :=
  match isEditing, currentId with
  | true, some cid =>
    match bookings.find? (fun b => b.id == cid) with
    | some originalBooking =>
      !(originalBooking.date == fd.date &&
        originalBooking.time == fd.time &&
        originalBooking.duration == serviceDuration)
    | none => true
  | _, _ => true

/-- Function `handleSubmit` of `OperationsPage` as a pure function.  The
`window.confirm` answer to the room-full warning is the
`confirmOverbook` argument; `Date.now().toString()` is the `newId`
argument.  `discountAmount` is `Number(formData.discount) || 0`, the
identity on the form's numeric discount; `Math.max(0, service.price -
discountAmount)` is `max 0` over truncated Nat subtraction, which
agrees with the source on every input.  On the update path the source
spreads an object without a `code` field, modelled as `""`. -/
def handleSubmit (bookings : List Booking) (services : List Service)
    (employees : List Employee) (fd : FormData) (isEditing : Bool)
    (currentId : Option String) (confirmOverbook : Bool)
    (newId : String) : SubmitResult :=
  match services.find? (fun s => s.id == fd.serviceId) with
  | none => SubmitResult.noService
  | some service =>
    let rs := roomStatus bookings fd.date isEditing currentId fd.time
      (some service)
    if shouldCheckRoom bookings fd isEditing currentId service.duration
        && rs.isFull && !confirmOverbook then
      SubmitResult.overbookDeclined
    else
      let validStaffIds :=
        fd.selectedStaffIds.filter (fun i => i != "" && trimString i != "")
      if validStaffIds.length < service.staffCount then
        SubmitResult.notEnoughStaff
      else
        let selectedStaffObjects := validStaffIds.filterMap
          (fun i => employees.find? (fun e => e.id == i))
        let staffNameString :=
          if selectedStaffObjects.length > 0 then
            joinNames (selectedStaffObjects.map (fun e => e.name))
          else "Chưa chỉ định"
        let discountAmount := fd.discount
        let finalTotalAmount := max 0 (service.price - discountAmount)
        let base : Booking :=
          { id := "", code := "",
            customerName := fd.customerName,
            customerPhone := fd.customerPhone,
            serviceId := fd.serviceId, serviceName := service.name,
            staffId := validStaffIds.head?, staffIds := validStaffIds,
            staffName := staffNameString,
            date := fd.date, time := fd.time,
            duration := service.duration, status := fd.status,
            notes := fd.notes, totalAmount := finalTotalAmount,
            discount := some discountAmount }
        match isEditing, currentId with
        | true, some cid => SubmitResult.update { base with id := cid }
        | true, none =>
          SubmitResult.create
            { base with id := newId, code := generateCode bookings }
        | false, _ =>
          SubmitResult.create
            { base with id := newId, code := generateCode bookings }

/-- The record the application shell builds from the store's reply to a
booking insert (`handleAddBooking` of the app shell): the store echoes
the inserted payload and assigns the id; the display-only fields
(`serviceName`, `staffName`) are set to `''` and `staffId` to `null`. -/
def mapInsertedBooking (nb : Booking) (dbId : String) : Booking :=
  { id := dbId, code := nb.code,
    customerName := nb.customerName, customerPhone := nb.customerPhone,
    serviceId := nb.serviceId, serviceName := "",
    staffId := none, staffIds := nb.staffIds, staffName := "",
    date := nb.date, time := nb.time, duration := nb.duration,
    status := nb.status, notes := nb.notes,
    totalAmount := nb.totalAmount, discount := nb.discount }

/-- Handler `handleAddBooking` of the app shell: the store call is modelled by
its result (`Except.error` message, or `Except.ok` with the id the store
assigned).  On failure the collection is untouched and the error is
surfaced; on success the mapped record is appended
(`setBookings(prev => [...prev, mapped])`). -/
def handleAddBooking (bookings : List Booking) (newBooking : Booking)
    (storeResult : Except String String) : List Booking × Option String :=
  match storeResult with
  | Except.error e => (bookings, some e)
  | Except.ok dbId => (bookings ++ [mapInsertedBooking newBooking dbId], none)

/-- Handler `handleUpdateBooking` of the app shell: on store failure the
collection is untouched and the error surfaced; on success the record
with the matching id is replaced. -/
def handleUpdateBooking (bookings : List Booking)
    (updatedBooking : Booking) (storeError : Option String) :
    List Booking × Option String :=
  match storeError with
  | some e => (bookings, some e)
  | none =>
    (bookings.map (fun b =>
      if b.id == updatedBooking.id then updatedBooking else b), none)

/-- Action `updateStatus` of `OperationsPage` composed with
`handleUpdateBooking`: look the booking up by id, overwrite only its
status, and persist. -/
def updateStatus (bookings : List Booking) (id : String)
    (newStatus : BookingStatus) (storeError : Option String) :
    List Booking × Option String :=
  match bookings.find? (fun b => b.id == id) with
  | none => (bookings, none)
  | some booking =>
    handleUpdateBooking bookings { booking with status := newStatus }
      storeError

/-- The submission pipeline: `handleSubmit` followed by the persistence
handler its outcome invokes; returns the resulting booking collection. -/
def submitAndPersist (bookings : List Booking) (services : List Service)
    (employees : List Employee) (fd : FormData) (isEditing : Bool)
    (currentId : Option String) (confirmOverbook : Bool) (newId : String)
    (storeResult : Except String String) : List Booking :=
  match handleSubmit bookings services employees fd isEditing currentId
      confirmOverbook newId with
  | SubmitResult.create b => (handleAddBooking bookings b storeResult).1
  | SubmitResult.update b =>
    (handleUpdateBooking bookings b
      (match storeResult with
       | Except.error e => some e
       | Except.ok _ => none)).1
  | _ => bookings

/-- The spec's `isBlocking` predicate: true exactly on
{Pending, Confirmed, InProgress} — the spec's notion of a
capacity-consuming status.  (Stated from the spec's words, for
comparison with the source's check.) -/
def isBlockingSpec (s : BookingStatus) : Bool :=
  match s with
  | BookingStatus.pending => true
  | BookingStatus.confirmed => true
  | BookingStatus.inProgress => true
  | BookingStatus.completed => false
  | BookingStatus.cancelled => false

/-- Occupied-room count as the claims phrase it: bookings on the date,
with a status accepted by `blocking`, not the excluded booking, whose
half-open interval overlaps the window `[startMin, startMin + durMin)`. -/
def claimOccupiedCount (blocking : BookingStatus → Bool)
    (bookings : List Booking) (date : String) (startMin durMin : Nat)
    (excludeId : Option String) : Nat :=
  (bookings.filter (fun b =>
    b.date == date && blocking b.status &&
    (match excludeId with
     | some i => b.id != i
     | none => true) &&
    overlaps startMin (startMin + durMin) (timeToMinutes b.time)
      (timeToMinutes b.time + b.duration))).length

/-- The booking effectively excluded by `getRoomAvailability`'s
self-exclusion guard: `currentId` when editing, nothing otherwise. -/
def effectiveExclude (isEditing : Bool) (currentId : Option String) :
    Option String :=
  if isEditing then currentId else none

/-- A booking on 2024-01-01 with the given id, start time, duration and
status, used to instantiate the theorems below on concrete inputs. -/
def sampleBooking (id time : String) (dur : Nat) (st : BookingStatus) :
    Booking :=
  { id := id, code := "", customerName := "KH", customerPhone := "",
    serviceId := "s1", serviceName := "", staffId := none, staffIds := [],
    staffName := "", date := "2024-01-01", time := time, duration := dur,
    status := st, notes := "", totalAmount := 0, discount := none }

/-- Five confirmed 60-minute bookings starting 10:00 on 2024-01-01. -/
def fiveAtTen : List Booking :=
  [sampleBooking "b1" "10:00" 60 BookingStatus.confirmed,
   sampleBooking "b2" "10:00" 60 BookingStatus.confirmed,
   sampleBooking "b3" "10:00" 60 BookingStatus.confirmed,
   sampleBooking "b4" "10:00" 60 BookingStatus.confirmed,
   sampleBooking "b5" "10:00" 60 BookingStatus.confirmed]

/-- Extract the booking a submission hands to a persistence callback. -/
def submittedBooking : SubmitResult → Option Booking
  | SubmitResult.create b => some b
  | SubmitResult.update b => some b
  | _ => none

/-- A completed 60-minute booking at 10:00 used as concrete input. -/
def completedAtTen : Booking :=
  sampleBooking "c1" "10:00" 60 BookingStatus.completed

/-- The "Massage Aroma 60" service of the seed data. -/
def massage60 : Service :=
  { id := "s1", code := "DV004", name := "Massage Aroma 60",
    duration := 60, price := 400000, staffCount := 1 }

/-- A 90-minute, 500000-priced service (the seed data's first service). -/
def discountedService : Service :=
  { id := "s1", code := "DV001", name := "Massage Body Đá Nóng",
    duration := 90, price := 500000, staffCount := 1 }

/-- A concrete employee. -/
def employeeOne : Employee := { id := "e1", name := "Trần Văn Minh" }

/-- Form state of an edit of a booking with a 200000 discount on the
500000-priced service. -/
def editFormWithDiscountedBooking : FormData :=
  { customerName := "KH", customerPhone := "0900000000", serviceId := "s1",
    staffId := some "e1", selectedStaffIds := ["e1"],
    date := "2024-01-01", time := "10:00",
    status := BookingStatus.confirmed, notes := "", discount := 200000 }

/-- The same form with a 600000 discount exceeding the 500000 price. -/
def overDiscountForm : FormData :=
  { editFormWithDiscountedBooking with discount := 600000 }

-- ------------------------------------------------------------------
-- Helper lemmas shared by the claim theorems
-- ------------------------------------------------------------------

/-- Pointwise identity between the source's booking filter (date filter
then `blocksWindow`) and the claims' phrasing of the occupancy
predicate over the spec's blocking statuses. -/
theorem blocksWindow_and_date (cs ce : Nat) (ed : Bool)
    (cid : Option String) (d : String) (b : Booking) :
    (blocksWindow cs ce ed cid b && (b.date == d))
      = (b.date == d && isBlockingSpec b.status &&
         (match effectiveExclude ed cid with
          | some i => b.id != i
          | none => true) &&
         overlaps cs ce (timeToMinutes b.time)
           (timeToMinutes b.time + b.duration)) := by
  unfold blocksWindow isBlocking isBlockingSpec effectiveExclude
  cases hst : b.status <;>
    cases hd : (b.date == d) <;>
    cases ed <;>
    (try cases cid) <;>
    simp_all <;>
    (first
      | rfl
      | (rename_i i
         by_cases hid : i = b.id <;>
           simp_all [bne] <;>
           exact fun _ h => hid h.symm))

/-- The occupied count the source computes coincides, for every input,
with the claims' count over spec-blocking bookings, with the
self-exclusion active exactly when editing. -/
theorem occupiedCount_eq_claim (B : List Booking) (d : String) (ed : Bool)
    (cid : Option String) (t : String) (m : Nat) :
    (getRoomAvailability B d ed cid t m).occupiedCount
      = claimOccupiedCount isBlockingSpec B d (timeToMinutes t) m
          (effectiveExclude ed cid) := by
  unfold getRoomAvailability claimOccupiedCount
  simp only [List.filter_filter]
  congr 1
  apply List.filter_congr
  intro b _
  exact blocksWindow_and_date (timeToMinutes t) (timeToMinutes t + m) ed cid d b

/-- Availability is exactly `occupiedCount < TOTAL_ROOMS`. -/
theorem isAvailable_iff (B : List Booking) (d : String) (ed : Bool)
    (cid : Option String) (t : String) (m : Nat) :
    (getRoomAvailability B d ed cid t m).isAvailable = true
      ↔ (getRoomAvailability B d ed cid t m).occupiedCount < TOTAL_ROOMS := by
  unfold getRoomAvailability
  simp

/-- Effect of one more booking on the occupied count. -/
theorem occupiedCount_cons (b : Booking) (B : List Booking) (d : String)
    (ed : Bool) (cid : Option String) (t : String) (m : Nat) :
    (getRoomAvailability (b :: B) d ed cid t m).occupiedCount
      = (if (b.date == d) &&
            blocksWindow (timeToMinutes t) (timeToMinutes t + m) ed cid b
         then 1 else 0)
        + (getRoomAvailability B d ed cid t m).occupiedCount := by
  unfold getRoomAvailability
  simp only [List.filter_cons]
  cases hd : (b.date == d) <;>
    cases hb : blocksWindow (timeToMinutes t) (timeToMinutes t + m) ed cid b <;>
    simp [hd, hb] <;> omega

-- ------------------------------------------------------------------
-- C1
-- ------------------------------------------------------------------

/-- Claim C1: for every date, start time, service duration and booking
collection, the room-availability check reports occupiedCount equal to
the number of bookings on the date whose status is capacity-consuming
({Pending, Confirmed, InProgress}), whose half-open interval overlaps
the queried window, excluding the booking currently being edited; and
it reports available exactly when occupiedCount is below
TOTAL_ROOMS = 5. -/
theorem C1_room_occupancy (B : List Booking) (d : String)
    (ed : Bool) (cid : Option String) (t : String) (m : Nat) :
    (getRoomAvailability B d ed cid t m).occupiedCount
      = claimOccupiedCount isBlockingSpec B d (timeToMinutes t) m
          (effectiveExclude ed cid)
    ∧ ((getRoomAvailability B d ed cid t m).isAvailable = true
      ↔ (getRoomAvailability B d ed cid t m).occupiedCount < TOTAL_ROOMS) :=
  ⟨occupiedCount_eq_claim B d ed cid t m, isAvailable_iff B d ed cid t m⟩

-- ------------------------------------------------------------------
-- C2
-- ------------------------------------------------------------------

/-- Claim C2: the source's `isBlocking` is true exactly on
{Pending, Confirmed, InProgress} and false on {Completed, Cancelled},
coinciding with the spec's capacity-consuming predicate; and the
room-availability check delegates to it — a booking on the queried date
whose interval overlaps the window is counted exactly when its status
is blocking, so Completed and Cancelled bookings are never counted. -/
theorem C2_blocking_statuses :
    (isBlocking BookingStatus.pending = true
     ∧ isBlocking BookingStatus.confirmed = true
     ∧ isBlocking BookingStatus.inProgress = true
     ∧ isBlocking BookingStatus.completed = false
     ∧ isBlocking BookingStatus.cancelled = false)
    ∧ (∀ s, isBlocking s = isBlockingSpec s)
    ∧ (∀ (b : Booking) (d t : String) (m : Nat),
        b.date = d →
        overlaps (timeToMinutes t) (timeToMinutes t + m)
          (timeToMinutes b.time) (timeToMinutes b.time + b.duration)
          = true →
        (getRoomAvailability [b] d false none t m).occupiedCount
          = if isBlocking b.status then 1 else 0) := by
  refine ⟨⟨rfl, rfl, rfl, rfl, rfl⟩, fun s => by cases s <;> rfl, ?_⟩
  intro b d t m hd hov
  have hc := occupiedCount_cons b [] d false none t m
  have h0 : (getRoomAvailability [] d false none t m).occupiedCount = 0 := rfl
  rw [h0] at hc
  rw [hc]
  unfold blocksWindow
  cases hbl : isBlocking b.status <;> simp [hd, hov, hbl]

/-- Witness for C2: a concrete Completed booking on the queried date,
overlapping the window, is not counted (count 0, `isBlocking` false). -/
theorem C2_blocking_statuses_witness :
    (getRoomAvailability [completedAtTen] "2024-01-01" false none
      "10:00" 60).occupiedCount
    = if isBlocking completedAtTen.status then 1 else 0 :=
  C2_blocking_statuses.2.2 completedAtTen "2024-01-01" "10:00" 60 rfl
    (by decide)

-- ------------------------------------------------------------------
-- C3
-- ------------------------------------------------------------------

/-- The booking the edit of a 200000-discounted booking of the
500000-priced service submits. -/
def discountedSubmission : Booking :=
  { id := "bk-edit", code := "", customerName := "KH",
    customerPhone := "0900000000", serviceId := "s1",
    serviceName := "Massage Body Đá Nóng", staffId := some "e1",
    staffIds := ["e1"], staffName := "Trần Văn Minh",
    date := "2024-01-01", time := "10:00", duration := 90,
    status := BookingStatus.confirmed, notes := "",
    totalAmount := 300000, discount := some 200000 }

/-- Claim C3: every accepted submission (create or update) with
resolvable service s and discount d stores
totalAmount = max(0, s.price - d) together with the discount; in
particular a 200000 discount on a 500000-priced service yields 300000
and a 600000 discount yields 0 — never a negative amount. -/
theorem C3_discount_floor :
    (∀ (B : List Booking) (services : List Service)
       (employees : List Employee) (fd : FormData) (ed : Bool)
       (cid : Option String) (conf : Bool) (nid : String)
       (s : Service) (b : Booking),
      services.find? (fun sv => sv.id == fd.serviceId) = some s →
      submittedBooking
          (handleSubmit B services employees fd ed cid conf nid)
        = some b →
      b.totalAmount = max 0 (s.price - fd.discount)
      ∧ b.discount = some fd.discount)
    ∧ Option.map Booking.totalAmount
        (submittedBooking (handleSubmit [] [discountedService] [employeeOne]
          editFormWithDiscountedBooking true (some "bk-edit") true "unused"))
        = some 300000
    ∧ Option.map Booking.totalAmount
        (submittedBooking (handleSubmit [] [discountedService] [employeeOne]
          overDiscountForm false none true "new-id"))
        = some 0 := by
  refine ⟨?_, by decide, by decide⟩
  intro B services employees fd ed cid conf nid s b hs hsub
  by_cases hob : (shouldCheckRoom B fd ed cid s.duration
      && (roomStatus B fd.date ed cid fd.time (some s)).isFull
      && !conf) = true
  · have hr : handleSubmit B services employees fd ed cid conf nid
        = SubmitResult.overbookDeclined := by
      simp [handleSubmit, hs, hob]
    rw [hr] at hsub
    exact absurd hsub (by simp [submittedBooking])
  · by_cases hlt : ((fd.selectedStaffIds.filter
        (fun i => i != "" && trimString i != "")).length < s.staffCount)
    · have hr : handleSubmit B services employees fd ed cid conf nid
          = SubmitResult.notEnoughStaff := by
        simp [handleSubmit, hs, hob, hlt]
      rw [hr] at hsub
      exact absurd hsub (by simp [submittedBooking])
    · revert hsub
      cases ed <;> (try cases cid) <;>
        simp [handleSubmit, hs, hob, hlt, submittedBooking] <;>
        (rintro rfl; exact ⟨rfl, rfl⟩)

/-- Witness for C3: the edit of the 200000-discounted booking submits
exactly `discountedSubmission`, whose total is the floored
difference. -/
theorem C3_discount_floor_witness :
    discountedSubmission.totalAmount
      = max 0 (discountedService.price
          - editFormWithDiscountedBooking.discount)
    ∧ discountedSubmission.discount
      = some editFormWithDiscountedBooking.discount :=
  C3_discount_floor.1 [] [discountedService] [employeeOne]
    editFormWithDiscountedBooking true (some "bk-edit") true "unused"
    discountedService discountedSubmission (by decide) (by decide)

-- ------------------------------------------------------------------
-- C5
-- ------------------------------------------------------------------

/-- Claim C5: interval conflict is exactly
`max(aStart, bStart) < min(aEnd, bEnd)` on half-open intervals; an
interval that ends exactly when the other starts never overlaps (in
either order), and concretely a 10:00–11:00 booking contributes nothing
to the occupancy of an 11:00–12:00 window and vice versa. -/
theorem C5_half_open_overlap :
    (∀ aS aE bS bE : Nat,
      overlaps aS aE bS bE = true ↔ max aS bS < min aE bE)
    ∧ (∀ aS aE bE : Nat, overlaps aS aE aE bE = false)
    ∧ (∀ aS aE bS : Nat, overlaps aS aE bS aS = false)
    ∧ (getRoomAvailability
        [sampleBooking "a1" "10:00" 60 BookingStatus.confirmed]
        "2024-01-01" false none "11:00" 60).occupiedCount = 0
    ∧ (getRoomAvailability
        [sampleBooking "a2" "11:00" 60 BookingStatus.confirmed]
        "2024-01-01" false none "10:00" 60).occupiedCount = 0 := by
  refine ⟨fun aS aE bS bE => by simp [overlaps],
    fun aS aE bE => ?_, fun aS aE bS => ?_, by decide, by decide⟩
  · simp only [overlaps, decide_eq_false_iff_not]
    exact Nat.not_lt.2
      (Nat.le_trans (Nat.min_le_left aE bE) (Nat.le_max_right aS aE))
  · simp only [overlaps, decide_eq_false_iff_not]
    exact Nat.not_lt.2
      (Nat.le_trans (Nat.min_le_right aE aS) (Nat.le_max_left aS bS))

-- ------------------------------------------------------------------
-- C4
-- ------------------------------------------------------------------

/-- The booking being edited in the C4 scenario: a sixth confirmed
booking at 10:00 on the same day as the five others. -/
def bookingX : Booking := sampleBooking "x" "10:00" 60 BookingStatus.confirmed

/-- Form state of a status-only edit of `bookingX`: date, time and
service (hence duration) identical to its persisted values, only the
status differs. -/
def statusEditForm : FormData :=
  { customerName := "KH", customerPhone := "", serviceId := "s1",
    staffId := none, selectedStaffIds := ["e1"], date := "2024-01-01",
    time := "10:00", status := BookingStatus.completed, notes := "",
    discount := 0 }

/-- Claim C4: when an existing booking is edited without changing its
date, start time or duration (for example a status-only edit), the
room-capacity check is bypassed entirely: `shouldCheckRoom` is false,
so the submission never returns the declined-overbook outcome — for
every collection (even with all 5 rooms otherwise occupied by other
bookings) and even when the confirm answer would be negative. -/
theorem C4_edit_bypass (B : List Booking) (ob : Booking)
    (services : List Service) (employees : List Employee) (fd : FormData)
    (conf : Bool) (nid : String) (s : Service)
    (hs : services.find? (fun sv => sv.id == fd.serviceId) = some s)
    (hfind : B.find? (fun b => b.id == ob.id) = some ob)
    (hdate : ob.date = fd.date) (htime : ob.time = fd.time)
    (hdur : ob.duration = s.duration) :
    shouldCheckRoom B fd true (some ob.id) s.duration = false
    ∧ handleSubmit B services employees fd true (some ob.id) conf nid
        ≠ SubmitResult.overbookDeclined := by
  have hscr : shouldCheckRoom B fd true (some ob.id) s.duration = false := by
    simp [shouldCheckRoom, hfind, hdate, htime, hdur]
  refine ⟨hscr, ?_⟩
  by_cases hlt : ((fd.selectedStaffIds.filter
      (fun i => i != "" && trimString i != "")).length < s.staffCount)
  · simp [handleSubmit, hs, hscr, hlt]
  · simp [handleSubmit, hs, hscr, hlt]

/-- Witness for C4: a status-only edit of `bookingX` while five other
confirmed bookings occupy every room at 10:00 skips the room check and
is not blocked even though the confirm answer is negative. -/
theorem C4_edit_bypass_witness :
    shouldCheckRoom (fiveAtTen ++ [bookingX]) statusEditForm true
        (some bookingX.id) massage60.duration = false
    ∧ handleSubmit (fiveAtTen ++ [bookingX]) [massage60] [employeeOne]
        statusEditForm true (some bookingX.id) false "unused"
      ≠ SubmitResult.overbookDeclined :=
  C4_edit_bypass (fiveAtTen ++ [bookingX]) bookingX [massage60]
    [employeeOne] statusEditForm false "unused" massage60
    (by decide) (by decide) rfl rfl rfl

-- ------------------------------------------------------------------
-- C9
-- ------------------------------------------------------------------

/-- Claim C9: the room-availability check is monotonic non-increasing
in additional bookings — one more booking never lowers the occupied
count and never turns an unavailable window available; and a
capacity-consuming (spec-blocking) booking on the queried date whose
interval overlaps the window, and which is not the excluded one, raises
the occupied count by exactly one. -/
theorem C9_monotonicity (B : List Booking) (b : Booking) (d t : String)
    (m : Nat) (ed : Bool) (cid : Option String) :
    ((getRoomAvailability B d ed cid t m).occupiedCount
      ≤ (getRoomAvailability (b :: B) d ed cid t m).occupiedCount)
    ∧ ((getRoomAvailability (b :: B) d ed cid t m).isAvailable = true →
        (getRoomAvailability B d ed cid t m).isAvailable = true)
    ∧ (b.date = d → isBlockingSpec b.status = true →
       overlaps (timeToMinutes t) (timeToMinutes t + m)
         (timeToMinutes b.time) (timeToMinutes b.time + b.duration) = true →
       ¬ (ed = true ∧ cid = some b.id) →
       (getRoomAvailability (b :: B) d ed cid t m).occupiedCount
         = (getRoomAvailability B d ed cid t m).occupiedCount + 1) := by
  have hc := occupiedCount_cons b B d ed cid t m
  refine ⟨?_, ?_, ?_⟩
  · rw [hc]; omega
  · intro hav
    rw [isAvailable_iff] at hav ⊢
    omega
  · intro hd hbl hov hex
    rw [hc]
    have hguard : blocksWindow (timeToMinutes t) (timeToMinutes t + m)
        ed cid b = true := by
      unfold blocksWindow
      have hbl2 : isBlocking b.status = true := by
        cases hs : b.status <;> simp_all [isBlocking, isBlockingSpec]
      have hne : (ed && cid == some b.id) = false := by
        cases ed with
        | false => rfl
        | true =>
          cases cid with
          | none => rfl
          | some c =>
            have : ¬ c = b.id := fun h => hex ⟨rfl, by rw [h]⟩
            simp [this]
      simp [hbl2, hne, hov]
    simp [hd, hguard]
    omega

/-- Witness for C9: adding one overlapping Pending booking to the empty
collection raises the occupied count from 0 to 1. -/
theorem C9_monotonicity_witness :
    (getRoomAvailability [sampleBooking "m1" "10:00" 60
      BookingStatus.pending] "2024-01-01" false none "10:00" 60).occupiedCount
    = (getRoomAvailability ([] : List Booking) "2024-01-01" false none
        "10:00" 60).occupiedCount + 1 :=
  (C9_monotonicity [] (sampleBooking "m1" "10:00" 60 BookingStatus.pending)
    "2024-01-01" "10:00" 60 false none).2.2 rfl (by decide) (by decide)
    (by simp)

-- ------------------------------------------------------------------
-- C6
-- ------------------------------------------------------------------

/-- The next-available-slot search as the spec words it: starting from
the candidate start index in the canonical slot sequence, scan linearly
forward and return the label of the first slot whose availability test
passes, or none when the sequence is exhausted. -/
def findNextAvailableSlot (avail : String → Bool) (startIndex : Nat) :
    Option String :=
  (ALL_TIME_SLOTS.drop startIndex).find? avail

/-- A Bool equation for non-emptiness of a string. -/
theorem beq_empty_false {t : String} (ht : ¬ t = "") :
    (t == "") = false := by
  cases hq : (t == "") with
  | false => rfl
  | true => exact absurd (by simpa using hq) ht

/-- The index a successful `findIdx?` over the slot table returns
points at the searched label. -/
theorem slot_at_findIdx (t : String) (i : Nat)
    (h : ALL_TIME_SLOTS.findIdx? (fun u => u == t) = some i) :
    ∃ hi : i < ALL_TIME_SLOTS.length, ALL_TIME_SLOTS.get ⟨i, hi⟩ = t := by
  rw [List.findIdx?_eq_some_iff_findIdx_eq] at h
  obtain ⟨hi, hidx⟩ := h
  subst hidx
  refine ⟨hi, ?_⟩
  have hp := List.findIdx_getElem (w := hi)
  simpa using hp

/-- Claim C6: the canonical slot sequence starts at "10:00" and ends at
"22:00"; when the candidate start time is room-unavailable and sits at
index i of the sequence, the form reports room-full and its suggestion
is exactly the linear forward scan from the candidate's index for the
first slot at which a room is available for the service duration (none
when exhausted); and in the scenario of five blocking 60-minute
bookings at "10:00", the suggestion for a 60-minute service requested
at "10:00" is "11:00". -/
theorem C6_next_slot_search :
    (ALL_TIME_SLOTS.head? = some "10:00" ∧ ALL_TIME_SLOTS.getLast? = some "22:00")
    ∧ (∀ (B : List Booking) (d : String) (ed : Bool) (cid : Option String)
         (t : String) (s : Service) (i : Nat),
        (getRoomAvailability B d ed cid t s.duration).isAvailable = false →
        ALL_TIME_SLOTS.findIdx? (fun u => u == t) = some i →
        roomStatus B d ed cid t (some s)
          = { isFull := true,
              nextTime := findNextAvailableSlot (fun u =>
                (getRoomAvailability B d ed cid u s.duration).isAvailable) i })
    ∧ roomStatus fiveAtTen "2024-01-01" false none "10:00" (some massage60)
        = { isFull := true, nextTime := some "11:00" } := by
  refine ⟨⟨by decide, by decide⟩, ?_, by decide⟩
  intro B d ed cid t s i hunav hidx
  obtain ⟨hi, hget⟩ := slot_at_findIdx t i hidx
  have htne : ¬ t = "" := by
    have hall : ∀ u ∈ ALL_TIME_SLOTS, ¬ u = "" := by decide
    have hmem : t ∈ ALL_TIME_SLOTS := by
      rw [← hget]
      exact List.get_mem ALL_TIME_SLOTS i hi
    exact hall t hmem
  have ht2 : (t == "") = false := beq_empty_false htne
  have hgete : ALL_TIME_SLOTS[i] = t := by
    simpa [List.get_eq_getElem] using hget
  simp only [roomStatus, ht2, Bool.false_eq_true, if_false, hunav,
    findNextAvailableSlot, hidx]
  rw [List.drop_eq_getElem_cons hi]
  rw [List.find?_cons_of_neg]
  simp [hgete, hunav]

/-- Witness for C6: at the five-bookings-at-10:00 scenario the
candidate "10:00" (index 0) is unavailable and the form's suggestion is
the forward scan from index 0. -/
theorem C6_next_slot_search_witness :
    (getRoomAvailability fiveAtTen "2024-01-01" false none "10:00"
      massage60.duration).isAvailable = false
    ∧ roomStatus fiveAtTen "2024-01-01" false none "10:00" (some massage60)
      = { isFull := true,
          nextTime := findNextAvailableSlot (fun u =>
            (getRoomAvailability fiveAtTen "2024-01-01" false none u
              massage60.duration).isAvailable) 0 } :=
  ⟨by decide, C6_next_slot_search.2.1 fiveAtTen "2024-01-01" false none
    "10:00" massage60 0 (by decide) (by decide)⟩

-- ------------------------------------------------------------------
-- C7
-- ------------------------------------------------------------------

/-- A service requiring two staff members (the seed data's combo). -/
def twoStaffService : Service :=
  { id := "s2", code := "DV003", name := "Combo Thư Giãn Sâu",
    duration := 120, price := 850000, staffCount := 2 }

/-- A form selecting `twoStaffService` but only one staff member. -/
def understaffedForm : FormData :=
  { customerName := "KH", customerPhone := "", serviceId := "s2",
    staffId := none, selectedStaffIds := ["e1"], date := "2024-01-01",
    time := "10:00", status := BookingStatus.confirmed, notes := "",
    discount := 0 }

/-- Claim C7: with a resolvable service, when the number of non-empty
selected staff ids is below the service's required staff count the
submission is hard-rejected — no create or update callback fires and
the collection is unchanged; when the count reaches the requirement the
staff-sufficiency check passes (the submission never fails with
not-enough-staff). -/
theorem C7_staff_sufficiency (B : List Booking) (services : List Service)
    (employees : List Employee) (fd : FormData) (ed : Bool)
    (cid : Option String) (conf : Bool) (nid : String)
    (store : Except String String) (s : Service)
    (hs : services.find? (fun sv => sv.id == fd.serviceId) = some s) :
    (((fd.selectedStaffIds.filter
        (fun i => i != "" && trimString i != "")).length < s.staffCount) →
      (∀ b, handleSubmit B services employees fd ed cid conf nid
          ≠ SubmitResult.create b)
      ∧ (∀ b, handleSubmit B services employees fd ed cid conf nid
          ≠ SubmitResult.update b)
      ∧ submitAndPersist B services employees fd ed cid conf nid store = B)
    ∧ (s.staffCount ≤ (fd.selectedStaffIds.filter
        (fun i => i != "" && trimString i != "")).length →
      handleSubmit B services employees fd ed cid conf nid
        ≠ SubmitResult.notEnoughStaff) := by
  by_cases hob : (shouldCheckRoom B fd ed cid s.duration
      && (roomStatus B fd.date ed cid fd.time (some s)).isFull
      && !conf) = true
  · have hr : handleSubmit B services employees fd ed cid conf nid
        = SubmitResult.overbookDeclined := by
      simp [handleSubmit, hs, hob]
    exact ⟨fun _ => ⟨fun b => by simp [hr], fun b => by simp [hr],
      by simp [submitAndPersist, hr]⟩, fun hge => by simp [hr]⟩
  · by_cases hlt : ((fd.selectedStaffIds.filter
        (fun i => i != "" && trimString i != "")).length < s.staffCount)
    · have hr : handleSubmit B services employees fd ed cid conf nid
          = SubmitResult.notEnoughStaff := by
        simp [handleSubmit, hs, hob, hlt]
      exact ⟨fun _ => ⟨fun b => by simp [hr], fun b => by simp [hr],
        by simp [submitAndPersist, hr]⟩, fun hge => absurd hlt (by omega)⟩
    · refine ⟨fun hlt2 => absurd hlt2 hlt, fun _ => ?_⟩
      cases ed <;> cases cid <;> simp [handleSubmit, hs, hob, hlt]

/-- Witness for C7: one selected staff member for a two-staff service
is hard-rejected and leaves the (empty) collection unchanged. -/
theorem C7_staff_sufficiency_witness :
    ((understaffedForm.selectedStaffIds.filter
      (fun i => i != "" && trimString i != "")).length
        < twoStaffService.staffCount)
    ∧ submitAndPersist [] [twoStaffService] [employeeOne] understaffedForm
        false none true "nid" (Except.ok "db1") = [] :=
  ⟨by decide,
    ((C7_staff_sufficiency [] [twoStaffService] [employeeOne]
      understaffedForm false none true "nid" (Except.ok "db1")
      twoStaffService (by decide)).1 (by decide)).2.2⟩

-- ------------------------------------------------------------------
-- C8
-- ------------------------------------------------------------------

/-- A persisted booking used as pre-existing collection content. -/
def existingBooking : Booking :=
  sampleBooking "b0" "10:00" 60 BookingStatus.confirmed

/-- A freshly submitted booking (distinct id and time). -/
def freshBooking : Booking :=
  sampleBooking "tmp" "12:00" 60 BookingStatus.confirmed

/-- Claim C8 as stated is false on the code: on a successful create the
new record is appended to the end of the collection
(`[...prev, mapped]`), not prepended: with one existing booking, the
result lists the old booking first and the new record last. -/
theorem C8_append_not_prepend_cx :
    (handleAddBooking [existingBooking] freshBooking (Except.ok "db1")).1
      = [existingBooking, mapInsertedBooking freshBooking "db1"]
    ∧ (handleAddBooking [existingBooking] freshBooking (Except.ok "db1")).1
      ≠ mapInsertedBooking freshBooking "db1" :: [existingBooking] :=
  ⟨rfl, by decide⟩

/-- Frame facts about a successful `handleUpdateBooking`: length is
preserved, positions with a different id are untouched, positions with
the matching id hold the updated record. -/
theorem handleUpdateBooking_frame (B : List Booking) (ub : Booking) :
    (handleUpdateBooking B ub none).1.length = B.length
    ∧ (∀ j, (hj : j < B.length) → (B.get ⟨j, hj⟩).id ≠ ub.id →
        (handleUpdateBooking B ub none).1[j]? = some (B.get ⟨j, hj⟩))
    ∧ (∀ j, (hj : j < B.length) → (B.get ⟨j, hj⟩).id = ub.id →
        (handleUpdateBooking B ub none).1[j]? = some ub) := by
  refine ⟨by simp [handleUpdateBooking], ?_, ?_⟩
  · intro j hj hne
    simp only [handleUpdateBooking, List.getElem?_map,
      List.getElem?_eq_getElem hj, Option.map_some]
    simp [List.get_eq_getElem, hne]
    exact fun h => absurd h hne
  · intro j hj heq
    simp only [handleUpdateBooking, List.getElem?_map,
      List.getElem?_eq_getElem hj, Option.map_some]
    simp only [List.get_eq_getElem] at heq
    simp [heq]

/-- Claim C8, amended: on store failure both create and update leave
the collection unchanged and surface the error; on success a create
appends the store-mapped record to the END of the collection, and an
update replaces the records with the matching id in place, leaving
every position whose id differs untouched. -/
theorem C8_persistence_amended (B : List Booking) (nb ub : Booking)
    (e dbId : String) :
    handleAddBooking B nb (Except.error e) = (B, some e)
    ∧ (handleAddBooking B nb (Except.ok dbId)).1
        = B ++ [mapInsertedBooking nb dbId]
    ∧ handleUpdateBooking B ub (some e) = (B, some e)
    ∧ (handleUpdateBooking B ub none).1.length = B.length
    ∧ (∀ j, (hj : j < B.length) → (B.get ⟨j, hj⟩).id ≠ ub.id →
        (handleUpdateBooking B ub none).1[j]? = some (B.get ⟨j, hj⟩))
    ∧ (∀ j, (hj : j < B.length) → (B.get ⟨j, hj⟩).id = ub.id →
        (handleUpdateBooking B ub none).1[j]? = some ub) := by
  obtain ⟨h1, h2, h3⟩ := handleUpdateBooking_frame B ub
  exact ⟨rfl, rfl, rfl, h1, h2, h3⟩

/-- Witness for C8's amended theorem: updating a record whose id
matches nothing in a one-element collection leaves position 0
unchanged. -/
theorem C8_persistence_witness :
    (0 < [existingBooking].length)
    ∧ (handleUpdateBooking [existingBooking] freshBooking none).1[0]?
        = some existingBooking :=
  ⟨by decide,
    (C8_persistence_amended [existingBooking] freshBooking freshBooking
      "err" "db1").2.2.2.2.1 0 (by decide) (by decide)⟩

-- ------------------------------------------------------------------
-- C10
-- ------------------------------------------------------------------

/-- Under distinct ids, looking a member booking up by its id finds
exactly it. -/
theorem find?_id_eq_self (B : List Booking) (b : Booking)
    (hmem : b ∈ B) (hnodup : (B.map Booking.id).Nodup) :
    B.find? (fun x => x.id == b.id) = some b := by
  have hsome : (B.find? (fun x => x.id == b.id)).isSome := by
    rw [List.find?_isSome]
    exact ⟨b, hmem, by simp⟩
  obtain ⟨y, hy⟩ := Option.isSome_iff_exists.mp hsome
  have hyB := List.mem_of_find?_eq_some hy
  have hyid : y.id = b.id := by simpa using List.find?_some hy
  have hyb : y = b := List.inj_on_of_nodup_map hnodup hyB hmem hyid
  rw [hy, hyb]

/-- Claim C10: for a booking b in a collection with pairwise-distinct
ids, the quick status-change action builds a record identical to b in
every field except status, persists it without error, and on success
replaces only b's record, leaving every other position of the
collection unchanged. -/
theorem C10_quick_status_change (B : List Booking) (b : Booking)
    (ns : BookingStatus) (hmem : b ∈ B)
    (hnodup : (B.map Booking.id).Nodup) :
    ({ b with status := ns } : Booking).status = ns
    ∧ ({ b with status := ns } : Booking).id = b.id
    ∧ ({ b with status := ns } : Booking).code = b.code
    ∧ ({ b with status := ns } : Booking).customerName = b.customerName
    ∧ ({ b with status := ns } : Booking).customerPhone = b.customerPhone
    ∧ ({ b with status := ns } : Booking).serviceId = b.serviceId
    ∧ ({ b with status := ns } : Booking).serviceName = b.serviceName
    ∧ ({ b with status := ns } : Booking).staffId = b.staffId
    ∧ ({ b with status := ns } : Booking).staffIds = b.staffIds
    ∧ ({ b with status := ns } : Booking).staffName = b.staffName
    ∧ ({ b with status := ns } : Booking).date = b.date
    ∧ ({ b with status := ns } : Booking).time = b.time
    ∧ ({ b with status := ns } : Booking).duration = b.duration
    ∧ ({ b with status := ns } : Booking).notes = b.notes
    ∧ ({ b with status := ns } : Booking).totalAmount = b.totalAmount
    ∧ ({ b with status := ns } : Booking).discount = b.discount
    ∧ (updateStatus B b.id ns none).2 = none
    ∧ (updateStatus B b.id ns none).1.length = B.length
    ∧ (∀ j, (hj : j < B.length) → (B.get ⟨j, hj⟩).id ≠ b.id →
        (updateStatus B b.id ns none).1[j]? = some (B.get ⟨j, hj⟩))
    ∧ (∀ j, (hj : j < B.length) → (B.get ⟨j, hj⟩).id = b.id →
        B.get ⟨j, hj⟩ = b
        ∧ (updateStatus B b.id ns none).1[j]?
            = some ({ b with status := ns } : Booking)) := by
  have hfind := find?_id_eq_self B b hmem hnodup
  have hup : updateStatus B b.id ns none
      = handleUpdateBooking B ({ b with status := ns } : Booking) none := by
    unfold updateStatus
    rw [hfind]
  obtain ⟨hlen, hne2, heq2⟩ :=
    handleUpdateBooking_frame B ({ b with status := ns } : Booking)
  refine ⟨rfl, rfl, rfl, rfl, rfl, rfl, rfl, rfl, rfl, rfl, rfl, rfl, rfl,
    rfl, rfl, rfl, by rw [hup]; rfl, by rw [hup]; exact hlen, ?_, ?_⟩
  · intro j hj hne
    rw [hup]
    exact hne2 j hj hne
  · intro j hj heq
    have hjb : B.get ⟨j, hj⟩ = b := by
      apply List.inj_on_of_nodup_map hnodup
      · exact List.get_mem B j hj
      · exact hmem
      · exact heq
    refine ⟨hjb, ?_⟩
    rw [hup]
    exact heq2 j hj heq

/-- Witness for C10: completing `bookingX` in a two-booking collection
with distinct ids leaves position 0 (the other booking) unchanged. -/
theorem C10_quick_status_change_witness :
    bookingX ∈ [existingBooking, bookingX]
    ∧ (updateStatus [existingBooking, bookingX] bookingX.id
        BookingStatus.completed none).1[0]? = some existingBooking :=
  ⟨by decide,
    (C10_quick_status_change [existingBooking, bookingX] bookingX
      BookingStatus.completed (by decide)
      (by decide)).2.2.2.2.2.2.2.2.2.2.2.2.2.2.2.2.2.2.1 0 (by decide)
      (by decide)⟩

end Spa
